import Mathlib

/-!
Verification of the streaming-decode and expiring-cache specification of the
engineertutor repository against its source (src/streamlit_app.py).

The shallow embedding models:
- JSON documents (as produced by json.loads / orjson.loads) as an inductive type;
- the Python operations the source applies to a parsed chunk, with their
  Python error behavior: the membership test (key in chunk), subscription
  (chunk[key], seq[0]) and dict.get with a default;
- a raw streamed line as either empty (falsy, skipped by the loop), invalid
  (json.loads raises, the MalformedChunk failure of the spec), or a parsed
  JSON document;
- the per-line decoding loop of stream_completion (the decode operation of
  the spec) and of generate_video (decode_video), as functions from the list
  of raw lines to the yielded elements together with an optional failure;
- the surrounding network call (requests.post plus raise_for_status) as a
  function of the single call outcome.
-/

/-- A parsed JSON document, the result of json.loads / orjson.loads on a line.
Numbers are modelled as integers; no claim depends on numeric contents. -/
inductive Json where
  | null : Json
  | bool : Bool → Json
  | num : Int → Json
  | str : String → Json
  | arr : List Json → Json
  | obj : List (String × Json) → Json

/-- Python runtime errors raised by the chunk-handling expressions in the
source: TypeError (subscription or membership on an unsupported type),
KeyError (missing dict key), IndexError (list index out of range),
AttributeError (.get on a non-dict). -/
inductive PyErr where
  | typeError : PyErr
  | keyError : PyErr
  | indexError : PyErr
  | attributeError : PyErr

/-- First binding of a key in a parsed JSON object (dict keys are unique
after parsing, so first match is the dict lookup). -/
def lookupField : List (String × Json) → String → Option Json
  | [], _ => none
  | (k2, v) :: rest, k => if k2 = k then some v else lookupField rest k

/-- Python equality of a JSON value with a string literal, as used by list
membership: only a string element can equal a string. -/
def Json.isStrVal : Json → String → Bool
  | Json.str t, s => t = s
  | _, _ => false

/-- Whether needle occurs as a substring of hay (Python str membership). -/
def substrOccurs (needle hay : String) : Bool :=
  (hay.splitOn needle).length != 1

/-- Python membership test (k in doc) on a parsed JSON document:
dict: key lookup; list: element equality with the string; str: substring;
any other type raises TypeError. -/
def Json.pyMem (k : String) : Json → Except PyErr Bool
  | Json.obj fields => Except.ok (lookupField fields k).isSome
  | Json.arr xs => Except.ok (xs.any (fun x => x.isStrVal k))
  | Json.str s => Except.ok (substrOccurs k s)
  | _ => Except.error PyErr.typeError

/-- Python subscription doc[k] with a string key: dict lookup raising
KeyError when absent; every other type raises TypeError. -/
def Json.subscript : Json → String → Except PyErr Json
  | Json.obj fields, k =>
    match lookupField fields k with
    | some v => Except.ok v
    | none => Except.error PyErr.keyError
  | Json.arr _, _ => Except.error PyErr.typeError
  | _, _ => Except.error PyErr.typeError

/-- Nth element of a list, used by integer subscription. -/
def listNth : List Json → Nat → Option Json
  | [], _ => none
  | x :: _, 0 => some x
  | _ :: xs, n + 1 => listNth xs n

/-- Python subscription doc[i] with an integer index: list indexing raising
IndexError when out of range; a string yields its one-character slice or
IndexError; a dict raises KeyError (parsed JSON dicts have string keys);
other types raise TypeError. -/
def Json.index : Json → Nat → Except PyErr Json
  | Json.arr xs, i =>
    match listNth xs i with
    | some v => Except.ok v
    | none => Except.error PyErr.indexError
  | Json.str s, i =>
    match s.toList.get? i with
    | some c => Except.ok (Json.str (String.mk [c]))
    | none => Except.error PyErr.indexError
  | Json.obj _, _ => Except.error PyErr.keyError
  | _, _ => Except.error PyErr.typeError

/-- Python dict.get(k, default): returns the binding or the default on a
dict; raises AttributeError on any other type. -/
def Json.pyGet (j : Json) (k : String) (dflt : Json) : Except PyErr Json :=
  match j with
  | Json.obj fields => Except.ok ((lookupField fields k).getD dflt)
  | _ => Except.error PyErr.attributeError

/-- One raw line of the streamed HTTP body, as seen by the loop
for line in response.iter_lines(): empty lines are falsy and skipped;
a non-empty line either fails json.loads (invalid) or parses to a
document (valid). -/
inductive RawLine where
  | empty : RawLine
  | invalid : RawLine
  | valid : Json → RawLine

/-- A failure escaping the decoding loop: MalformedChunk when json.loads
raises on a line, or a Python runtime error from the chunk expressions. -/
inductive DecodeError where
  | malformedChunk : DecodeError
  | runtime : PyErr → DecodeError

/-- Body of the stream_completion loop on one parsed chunk
(src/streamlit_app.py lines 48-49):
if choices in chunk: yield chunk[choices][0][delta].get(content, empty);
returns none when the line is skipped (no choices), some v when a value is
yielded, or the Python error raised. -/
def streamStep (chunk : Json) : Except PyErr (Option Json) :=
  match Json.pyMem ("choices") chunk with
  | Except.error e => Except.error e
  | Except.ok false => Except.ok none
  | Except.ok true =>
    match chunk.subscript ("choices") with
    | Except.error e => Except.error e
    | Except.ok choices =>
      match choices.index 0 with
      | Except.error e => Except.error e
      | Except.ok first =>
        match first.subscript ("delta") with
        | Except.error e => Except.error e
        | Except.ok delta =>
          match delta.pyGet ("content") (Json.str ("")) with
          | Except.error e => Except.error e
          | Except.ok c => Except.ok (some c)

/-- The per-line decoding of stream_completion (the decode operation of the
spec, src/streamlit_app.py lines 45-49) over a finite list of raw lines:
returns the list of yielded elements and, when the generator terminates by
raising, the escaping failure. -/
def decode : List RawLine → List Json × Option DecodeError
  | [] => ([], none)
  | RawLine.empty :: rest => decode rest
  | RawLine.invalid :: _ => ([], some DecodeError.malformedChunk)
  | RawLine.valid j :: rest =>
    match streamStep j with
    | Except.error e => ([], some (DecodeError.runtime e))
    | Except.ok none => decode rest
    | Except.ok (some c) => (c :: (decode rest).1, (decode rest).2)

/-- Body of the generate_video loop on one parsed line
(src/streamlit_app.py lines 112-113):
if data in doc: return doc[data][0][url]; none when the line is skipped,
some u when the function returns u, or the Python error raised. -/
def videoStep (doc : Json) : Except PyErr (Option Json) :=
  match Json.pyMem ("data") doc with
  | Except.error e => Except.error e
  | Except.ok false => Except.ok none
  | Except.ok true =>
    match doc.subscript ("data") with
    | Except.error e => Except.error e
    | Except.ok d =>
      match d.index 0 with
      | Except.error e => Except.error e
      | Except.ok first =>
        match first.subscript ("url") with
        | Except.error e => Except.error e
        | Except.ok u => Except.ok (some u)

/-- The decode_video operation of the spec (the generate_video loop,
src/streamlit_app.py lines 109-114): first line containing a data field
returns its extracted URL; exhaustion returns the empty string. -/
def decodeVideo : List RawLine → Except DecodeError Json
  | [] => Except.ok (Json.str (""))
  | RawLine.empty :: rest => decodeVideo rest
  | RawLine.invalid :: _ => Except.error DecodeError.malformedChunk
  | RawLine.valid j :: rest =>
    match videoStep j with
    | Except.error e => Except.error (DecodeError.runtime e)
    | Except.ok none => decodeVideo rest
    | Except.ok (some u) => Except.ok u

/-- Outcome of the single requests.post call made by stream_completion or
generate_video: a connection error or timeout raised by the call itself, or
a response carrying an HTTP status and the streamed body lines. -/
inductive NetResult where
  | connectionError : NetResult
  | timeout : NetResult
  | response : Nat → List RawLine → NetResult

/-- requests raise_for_status raises HTTPError exactly for statuses in
[400, 600). -/
def raisesForStatus (status : Nat) : Bool :=
  decide (400 ≤ status ∧ status < 600)

/-- Whether the network call fails in one of the modes of the spec error
taxonomy RemoteCallFailure: connection error, timeout, or an error HTTP
status that raise_for_status raises on. -/
def netFails : NetResult → Bool
  | NetResult.connectionError => true
  | NetResult.timeout => true
  | NetResult.response status _ => raisesForStatus status

/-- A failure escaping stream_completion or generate_video to their caller:
the RemoteCallFailure of the spec (the network call failed, nothing
decoded), or a failure from the decoding loop. -/
inductive CoreFailure where
  | remoteCallFailure : CoreFailure
  | chunkError : DecodeError → CoreFailure

/-- stream_completion (src/streamlit_app.py lines 38-49) as a function of
the outcome of its single HTTP call: raise_for_status then the per-line
decoding loop. Returns the yielded elements and an optional failure. -/
def streamCompletion : NetResult → List Json × Option CoreFailure
  | NetResult.connectionError => ([], some CoreFailure.remoteCallFailure)
  | NetResult.timeout => ([], some CoreFailure.remoteCallFailure)
  | NetResult.response status lines =>
    if raisesForStatus status then ([], some CoreFailure.remoteCallFailure)
    else
      match decode lines with
      | (ys, none) => (ys, none)
      | (ys, some e) => (ys, some (CoreFailure.chunkError e))

/-- generate_video (src/streamlit_app.py lines 102-114) as a function of
the outcome of its single HTTP call. -/
def generateVideo : NetResult → Except CoreFailure Json
  | NetResult.connectionError => Except.error CoreFailure.remoteCallFailure
  | NetResult.timeout => Except.error CoreFailure.remoteCallFailure
  | NetResult.response status lines =>
    if raisesForStatus status then Except.error CoreFailure.remoteCallFailure
    else
      match decodeVideo lines with
      | Except.ok u => Except.ok u
      | Except.error e => Except.error (CoreFailure.chunkError e)

/-- The source makes exactly one requests.post call: the first oracle entry
is the outcome of that call, and the remaining entries are the outcomes any
further attempts would have returned; the code performs no further attempt,
so they are not consumed. -/
def streamCompletionOnAttempts (first : NetResult) (_retries : List NetResult) :
    List Json × Option CoreFailure :=
  streamCompletion first

/-- Modelled from the spec: the ExpiringCache component (spec sections 3,
4.1 and 6) belongs to the other version of the app in this repository and
its source file is not among the provided sources; only the spec describes
it. One cache entry stores the payload and the unix time (in seconds,
modelled as Nat) at which put stored it. -/
structure CacheEntry where
  timestamp : Nat
  data : Json

/-- Modelled from the spec: the store maps keys to entries (spec section 6,
a single JSON object mapping each key to its entry). -/
structure ExpiringCache where
  store : List (String × CacheEntry)

/-- Modelled from the spec: TTL = 86400 seconds, fixed (spec section 4.1). -/
def TTL : Nat := 86400

/-- First entry bound to a key in the store. -/
def lookupEntry : List (String × CacheEntry) → String → Option CacheEntry
  | [], _ => none
  | (k2, e) :: rest, k => if k2 = k then some e else lookupEntry rest k

/-- Modelled from the spec: put overwrites any existing entry for the key
with the value and the current time (spec section 4.1). -/
def ExpiringCache.put (c : ExpiringCache) (now : Nat) (k : String) (v : Json) :
    ExpiringCache :=
  ExpiringCache.mk ((k, CacheEntry.mk now v) ::
    c.store.filter (fun p => decide (p.1 ≠ k)))

/-- Modelled from the spec: get returns the stored value only if
now - stored_at < TTL, does not mutate state, and does not purge expired
entries (spec section 4.1); it returns the result together with the store
it leaves behind. -/
def ExpiringCache.get (c : ExpiringCache) (now : Nat) (k : String) :
    Option Json × ExpiringCache :=
  match lookupEntry c.store k with
  | none => (none, c)
  | some e => if now - e.timestamp < TTL then (some e.data, c) else (none, c)

/-- One line that the stream_completion loop passes without raising: an
empty line (skipped before parsing), or a parsed line on which the loop
body either yields a value or skips. -/
def stepSkipsOrYields (l : RawLine) : Prop :=
  l = RawLine.empty ∨ ∃ j v, l = RawLine.valid j ∧ streamStep j = Except.ok v

/-- One line that the generate_video loop passes without matching and
without raising: an empty line, or a parsed line whose data membership
test is false. -/
def videoSkips (l : RawLine) : Prop :=
  l = RawLine.empty ∨ ∃ j, l = RawLine.valid j ∧ videoStep j = Except.ok none

/-- The parsed form of the first example chunk line of the spec. -/
def sampleHel : Json :=
  Json.obj [(("choices"), Json.arr [Json.obj
    [(("delta"), Json.obj [(("content"), Json.str ("Hel"))])]])]

/-- The parsed form of the second example chunk line of the spec. -/
def sampleLo : Json :=
  Json.obj [(("choices"), Json.arr [Json.obj
    [(("delta"), Json.obj [(("content"), Json.str ("lo"))])]])]

/-- Claim C1: for every key and every JSON value, put followed by get within
the TTL window (fewer than 86400 seconds elapsed) returns exactly the stored
value. -/
theorem c1_put_then_get_within_ttl (c : ExpiringCache) (now t : Nat)
    (k : String) (v : Json) (h : t < TTL) :
    ((c.put now k v).get (now + t) k).1 = some v := by
  simp [ExpiringCache.put, ExpiringCache.get, lookupEntry,
    Nat.add_sub_cancel_left, h]

/-- Witness for C1 at a concrete store, key, value and elapsed time. -/
theorem c1_witness :
    3 < TTL ∧
      ((ExpiringCache.mk []).put 100 ("k") (Json.str ("x")) |>.get (100 + 3)
        ("k")).1 = some (Json.str ("x")) :=
  And.intro (by decide)
    (c1_put_then_get_within_ttl (ExpiringCache.mk []) 100 3 ("k")
      (Json.str ("x")) (by decide))

/-- Claim C2: if more than 86400 seconds elapse between put and get, get
returns absent, leaves the store unchanged, and the expired entry is still
present (get does not purge it). -/
theorem c2_expired_get_absent_not_purged (c : ExpiringCache) (now t : Nat)
    (k : String) (v : Json) (h : TTL < t) :
    ((c.put now k v).get (now + t) k).1 = none ∧
      ((c.put now k v).get (now + t) k).2 = c.put now k v ∧
      lookupEntry (((c.put now k v).get (now + t) k).2).store k =
        some (CacheEntry.mk now v) := by
  have h2 : ¬ t < TTL := Nat.lt_asymm h
  refine And.intro ?_ (And.intro ?_ ?_) <;>
    simp [ExpiringCache.put, ExpiringCache.get, lookupEntry,
      Nat.add_sub_cancel_left, h2]

/-- Witness for C2 at a concrete store, key, value and elapsed time. -/
theorem c2_witness :
    TTL < 86401 ∧
      ((ExpiringCache.mk []).put 100 ("k") (Json.str ("x")) |>.get
        (100 + 86401) ("k")).1 = none :=
  And.intro (by decide)
    (c2_expired_get_absent_not_purged (ExpiringCache.mk []) 100 86401 ("k")
      (Json.str ("x")) (by decide)).1

/-- Claim C4: decode over the two example chunk lines yields exactly the
two content fragments Hel and lo, in that order, with no failure. -/
theorem c4_two_line_example :
    decode [RawLine.valid sampleHel, RawLine.valid sampleLo] =
      ([Json.str ("Hel"), Json.str ("lo")], none) := rfl

/-- Counterexample to claim C3: on a line whose choices array is empty the
claim predicts a yielded empty string, but the loop body indexes the empty
array and raises IndexError, yielding nothing. -/
theorem c3_counterexample :
    decode [RawLine.valid (Json.obj [(("choices"), Json.arr [])])] =
      ([], some (DecodeError.runtime PyErr.indexError)) ∧
      decode [RawLine.valid (Json.obj [(("choices"), Json.arr [])])] ≠
        ([Json.str ("")], none) := by
  refine And.intro rfl (fun hc => ?_)
  have h1 : ([] : List Json) = [Json.str ("")] := congrArg Prod.fst hc
  exact List.noConfusion h1

/-- Claim C3 as amended: on a line parsing to an object whose choices field
is a nonempty array whose first element has a delta field that is an
object, decode yields the delta content value, defaulting to the empty
string when the content field is absent, and continues with the remaining
lines. (An empty choices array raises IndexError and a missing or
non-object delta raises KeyError or TypeError, ending the stream.) -/
theorem c3_amended_nonempty_choices_with_delta
    (fields f2 dfields : List (String × Json)) (cs : List Json)
    (rest : List RawLine)
    (hc : lookupField fields ("choices") =
      some (Json.arr (Json.obj f2 :: cs)))
    (hd : lookupField f2 ("delta") = some (Json.obj dfields)) :
    decode (RawLine.valid (Json.obj fields) :: rest) =
      ((lookupField dfields ("content")).getD (Json.str ("")) ::
          (decode rest).1,
        (decode rest).2) := by
  have hstep : streamStep (Json.obj fields) =
      Except.ok (some ((lookupField dfields ("content")).getD
        (Json.str ("")))) := by
    simp [streamStep, Json.pyMem, hc, Json.subscript, Json.index, listNth,
      hd, Json.pyGet]
  simp [decode, hstep]

/-- Witness for the amended C3: a line with one choice whose delta object
has no content field yields the default empty string. -/
theorem c3_witness :
    decode [RawLine.valid (Json.obj [(("choices"),
        Json.arr [Json.obj [(("delta"), Json.obj [])]])])] =
      ([Json.str ("")], none) := by
  have h := c3_amended_nonempty_choices_with_delta
    [(("choices"), Json.arr [Json.obj [(("delta"), Json.obj [])]])]
    [(("delta"), Json.obj [])] [] [] [] rfl rfl
  simpa [lookupField, decode] using h

/-- Counterexample to claim C5: an input sequence containing a line that
fails to parse, preceded by a well-formed line with an empty choices array;
the run raises IndexError at the earlier line and no MalformedChunk failure
is ever propagated. -/
theorem c5_counterexample :
    decode [RawLine.valid (Json.obj [(("choices"), Json.arr [])]),
        RawLine.invalid] =
      ([], some (DecodeError.runtime PyErr.indexError)) ∧
      decode [RawLine.valid (Json.obj [(("choices"), Json.arr [])]),
        RawLine.invalid] ≠
      ([], some DecodeError.malformedChunk) := by
  refine And.intro rfl (fun hc => ?_)
  have h1 : some (DecodeError.runtime PyErr.indexError) =
      some DecodeError.malformedChunk := congrArg Prod.snd hc
  have h2 := Option.some.inj h1
  exact DecodeError.noConfusion h2

/-- Claim C5 as amended: when the first failing line of the input is one
that does not parse as JSON (every earlier line being empty, skipped, or
yielding without raising), decode yields exactly the deltas of the earlier
lines, then propagates MalformedChunk, and yields nothing further. -/
theorem c5_amended_malformed_after_clean_lines
    (pre post : List RawLine) (hpre : ∀ l ∈ pre, stepSkipsOrYields l) :
    decode (pre ++ RawLine.invalid :: post) =
      ((decode pre).1, some DecodeError.malformedChunk) := by
  induction pre with
  | nil => rfl
  | cons l pre ih =>
    have hrest : ∀ x ∈ pre, stepSkipsOrYields x :=
      fun x hx => hpre x (List.mem_cons_of_mem l hx)
    rcases hpre l (List.mem_cons_self l pre) with hl | ⟨j, v, hl, hstep⟩
    · subst hl
      simpa [decode] using ih hrest
    · subst hl
      cases v with
      | none => simpa [decode, hstep] using ih hrest
      | some c => simp [decode, hstep, ih hrest]

/-- Witness for the amended C5: a yielding line, then an unparseable line,
then a further well-formed line; the first delta is yielded, MalformedChunk
is raised, and the final line contributes nothing. -/
theorem c5_witness :
    decode [RawLine.valid sampleHel, RawLine.invalid, RawLine.valid sampleLo] =
      ([Json.str ("Hel")], some DecodeError.malformedChunk) := by
  have hp : ∀ l ∈ [RawLine.valid sampleHel], stepSkipsOrYields l := by
    intro l hl
    have := List.mem_singleton.mp hl
    subst this
    exact Or.inr ⟨sampleHel, some (Json.str ("Hel")), rfl, rfl⟩
  exact c5_amended_malformed_after_clean_lines [RawLine.valid sampleHel]
    [RawLine.valid sampleLo] hp

/-- Claim C6: decode_video returns the URL extracted from the first line
whose document matches the data membership test, and the result does not
depend on (never consumes) any line after that first matching line. -/
theorem c6_first_data_line_wins
    (pre post : List RawLine) (j u : Json)
    (hpre : ∀ l ∈ pre, videoSkips l)
    (hj : videoStep j = Except.ok (some u)) :
    decodeVideo (pre ++ RawLine.valid j :: post) = Except.ok u := by
  induction pre with
  | nil => simp [decodeVideo, hj]
  | cons l pre ih =>
    have hrest : ∀ x ∈ pre, videoSkips x :=
      fun x hx => hpre x (List.mem_cons_of_mem l hx)
    rcases hpre l (List.mem_cons_self l pre) with hl | ⟨j2, hl, hstep⟩
    · subst hl
      simpa [decodeVideo] using ih hrest
    · subst hl
      simpa [decodeVideo, hstep] using ih hrest

/-- Witness for C6: the three-line example of the spec returns the URL of
the second line and ignores the third. -/
theorem c6_witness :
    decodeVideo [RawLine.valid (Json.obj [(("foo"), Json.num 1)]),
      RawLine.valid (Json.obj [(("data"), Json.arr [Json.obj [(("url"),
        Json.str ("http://x/video.mp4"))]])]),
      RawLine.valid (Json.obj [(("data"), Json.arr [Json.obj [(("url"),
        Json.str ("http://y"))]])])] =
      Except.ok (Json.str ("http://x/video.mp4")) := by
  have hp : ∀ l ∈ [RawLine.valid (Json.obj [(("foo"), Json.num 1)])],
      videoSkips l := by
    intro l hl
    have := List.mem_singleton.mp hl
    subst this
    exact Or.inr ⟨Json.obj [(("foo"), Json.num 1)], rfl, rfl⟩
  exact c6_first_data_line_wins
    [RawLine.valid (Json.obj [(("foo"), Json.num 1)])]
    [RawLine.valid (Json.obj [(("data"), Json.arr [Json.obj [(("url"),
      Json.str ("http://y"))]])])]
    (Json.obj [(("data"), Json.arr [Json.obj [(("url"),
      Json.str ("http://x/video.mp4"))]])])
    (Json.str ("http://x/video.mp4")) hp rfl

/-- Counterexample to claim C7: the line parsing to the JSON number 5
contains no data field and parses as JSON, yet decode_video raises
TypeError (Python membership on an int) instead of returning the empty
string. -/
theorem c7_counterexample :
    decodeVideo [RawLine.valid (Json.num 5)] =
      Except.error (DecodeError.runtime PyErr.typeError) ∧
      decodeVideo [RawLine.valid (Json.num 5)] ≠
        Except.ok (Json.str ("")) := by
  refine And.intro rfl (fun hc => ?_)
  exact Except.noConfusion hc

/-- Claim C7 as amended: decode_video returns the empty string on any input
whose lines are all either empty or parse to a document on which the data
membership test is false (a container not containing data); a non-container
document such as a number makes the membership test raise TypeError. -/
theorem c7_amended_no_data_returns_empty
    (lines : List RawLine) (h : ∀ l ∈ lines, videoSkips l) :
    decodeVideo lines = Except.ok (Json.str ("")) := by
  induction lines with
  | nil => rfl
  | cons l rest ih =>
    have hrest : ∀ x ∈ rest, videoSkips x :=
      fun x hx => h x (List.mem_cons_of_mem l hx)
    rcases h l (List.mem_cons_self l rest) with hl | ⟨j2, hl, hstep⟩
    · subst hl
      simpa [decodeVideo] using ih hrest
    · subst hl
      simpa [decodeVideo, hstep] using ih hrest

/-- Witness for the amended C7: an empty line and a data-free object line
end with the empty string. -/
theorem c7_witness :
    decodeVideo [RawLine.empty,
      RawLine.valid (Json.obj [(("foo"), Json.num 1)])] =
      Except.ok (Json.str ("")) := by
  have hp : ∀ l ∈ [RawLine.empty,
      RawLine.valid (Json.obj [(("foo"), Json.num 1)])], videoSkips l := by
    intro l hl
    rcases List.mem_cons.mp hl with h1 | h2
    · exact Or.inl h1
    · have := List.mem_singleton.mp h2
      subst this
      exact Or.inr ⟨Json.obj [(("foo"), Json.num 1)], rfl, rfl⟩
  exact c7_amended_no_data_returns_empty _ hp

/-- Claim C8: a line parsing to an object without a choices field (a
terminal or usage-only line) yields nothing and the loop continues with the
remaining lines; an exhausted line source ends decoding with no failure. -/
theorem c8_no_choices_object_skipped
    (fields : List (String × Json)) (rest : List RawLine)
    (h : lookupField fields ("choices") = none) :
    decode (RawLine.valid (Json.obj fields) :: rest) = decode rest ∧
      decode [] = ([], none) := by
  have hstep : streamStep (Json.obj fields) = Except.ok none := by
    simp [streamStep, Json.pyMem, h]
  exact And.intro (by simp [decode, hstep]) rfl

/-- Witness for C8: a usage-only line is skipped and the following content
line still yields. -/
theorem c8_witness :
    decode [RawLine.valid (Json.obj [(("usage"), Json.num 3)]),
        RawLine.valid sampleLo] =
      decode [RawLine.valid sampleLo] :=
  (c8_no_choices_object_skipped [(("usage"), Json.num 3)]
    [RawLine.valid sampleLo] rfl).1

/-- Claim C9: when the network call fails (connection error, timeout, or an
HTTP error status), stream_completion yields no elements and surfaces
RemoteCallFailure, generate_video surfaces RemoteCallFailure instead of a
URL, and the result never depends on outcomes any further attempt would
have returned (the core does not retry). -/
theorem c9_remote_failure_no_result_no_retry
    (n : NetResult) (h : netFails n = true) :
    streamCompletion n = ([], some CoreFailure.remoteCallFailure) ∧
      generateVideo n = Except.error CoreFailure.remoteCallFailure ∧
      ∀ r1 r2 : List NetResult,
        streamCompletionOnAttempts n r1 = streamCompletionOnAttempts n r2 := by
  refine And.intro ?_ (And.intro ?_ (fun r1 r2 => rfl))
  · cases n with
    | connectionError => rfl
    | timeout => rfl
    | response s lines =>
      have hs : raisesForStatus s = true := h
      simp [streamCompletion, hs]
  · cases n with
    | connectionError => rfl
    | timeout => rfl
    | response s lines =>
      have hs : raisesForStatus s = true := h
      simp [generateVideo, hs]

/-- Witness for C9 at a concrete failing outcome (an HTTP 500 response). -/
theorem c9_witness :
    netFails (NetResult.response 500 [RawLine.valid sampleHel]) = true ∧
      streamCompletion (NetResult.response 500 [RawLine.valid sampleHel]) =
        ([], some CoreFailure.remoteCallFailure) :=
  And.intro (by decide)
    (c9_remote_failure_no_result_no_retry
      (NetResult.response 500 [RawLine.valid sampleHel]) (by decide)).1

/-- Claim C10: an empty (falsy) raw line at any position is silently
skipped by both decoding loops: it is never parsed, yields nothing, and
raises nothing. -/
theorem c10_empty_lines_skipped (pre post : List RawLine) :
    decode (pre ++ RawLine.empty :: post) = decode (pre ++ post) ∧
      decodeVideo (pre ++ RawLine.empty :: post) =
        decodeVideo (pre ++ post) := by
  induction pre with
  | nil => exact And.intro rfl rfl
  | cons l pre ih =>
    refine And.intro ?_ ?_
    · cases l with
      | empty => simpa [decode] using ih.1
      | invalid => rfl
      | valid j =>
        cases hstep : streamStep j with
        | error e => simp [decode, hstep]
        | ok v =>
          cases v with
          | none => simpa [decode, hstep] using ih.1
          | some c => simp [decode, hstep, ih.1]
    · cases l with
      | empty => simpa [decodeVideo] using ih.2
      | invalid => rfl
      | valid j =>
        cases hstep : videoStep j with
        | error e => simp [decodeVideo, hstep]
        | ok v =>
          cases v with
          | none => simpa [decodeVideo, hstep] using ih.2
          | some u => simp [decodeVideo, hstep]
